import Mathlib

/-!
# Book-Library: a shallow embedding of `src/main.cpp`

The C++ program keeps a `vector<Book>` inside a `Library` object and offers
`AddBook`, `RemoveBook` and `SearchBookById`.  A member function is modelled
as a function from the object before the call to a pair

  (outcome of the call, object after the call)

where the outcome is `Except.error e` when the C++ code throws `e` and
`Except.ok v` when it returns `v`.  The object after a throwing call is the
object as the code left it at the `throw`.

The C++ `int` fields are modelled as `Int`: the program never does arithmetic
on them, it only stores and compares them, so every `int` value is an `Int`
and the comparisons agree.
-/

set_option autoImplicit false

namespace BookLibrary

/-! ## Data model -/

/-- The two exception classes of the program, each holding the message passed
to its constructor and the integer it carries (`main.cpp` lines 64-95). -/
inductive BookException where
  | BookNotFoundException (msg : String) (id : Int)
  | ExistingBookISBNException (msg : String) (ISBN : Int)
  deriving DecidableEq, Repr

/-- The class `Book` (`main.cpp` lines 98-130): four private fields set by the
constructor `Book(title, author, id, ISBN)`. -/
structure Book where
  title : String
  author : String
  id : Int
  ISBN : Int
  deriving DecidableEq, Repr

namespace Book

/-- Setter `setId` (line 114). -/
def setId (self : Book) (id : Int) : Book := { self with id := id }

/-- Setter `setTitle` (line 115). -/
def setTitle (self : Book) (title : String) : Book := { self with title := title }

/-- Setter `setAuthor` (line 116). -/
def setAuthor (self : Book) (author : String) : Book := { self with author := author }

/-- Setter `setISBN` (line 117). -/
def setISBN (self : Book) (ISBN : Int) : Book := { self with ISBN := ISBN }

/-- Getter `getAuthor` (line 118). -/
def getAuthor (self : Book) : String := self.author

/-- Getter `getTitle` (line 119). -/
def getTitle (self : Book) : String := self.title

/-- Getter `getId` (line 120). -/
def getId (self : Book) : Int := self.id

/-- Getter `getISBN` (line 121). -/
def getISBN (self : Book) : Int := self.ISBN

/-- The member `bool operator == (const Book& book)` (lines 124-129): the
conjunction is evaluated in the order id, author, title, ISBN. -/
def operator_eq (self book : Book) : Bool :=
  if self.id == book.id && self.author == book.author
      && self.title == book.title && self.ISBN == book.ISBN then
    true
  else
    false

end Book

/-- The class `Library` (lines 133-164): its only member is `vector<Book> books`. -/
structure Library where
  books : List Book
  deriving DecidableEq, Repr

/-- The state of a default-constructed `Library` (line 167): no books. -/
def Library.empty : Library := { books := [] }

/-- The message literal thrown by `AddBook` (line 151). -/
def existingISBNMsg : String :=
  "ExistingBookISBNException Error: book by this ISBN already exists in this library!"

/-- The message literal thrown by `SearchBookById` (line 162). -/
def bookNotFoundMsg : String :=
  "BookNotFoundException Error: Could not find any book by the ID:"

/-! ## Operations -/

/-- The algorithm `std::find(first, last, value)` on the book vector, as an index
from `begin()`: the position of the first element `x` with `x == value`, or
the length of the list (the `end()` iterator) when there is none. -/
def find : List Book → Book → Nat
  | [], _ => 0
  | x :: rest, value => if x.operator_eq value then 0 else find rest value + 1

/-- The loop of `AddBook` (lines 148-153): walks the books in order and throws
at the first one whose ISBN equals the ISBN of the new book. -/
def AddBook.loop : List Book → Book → Except BookException Unit
  | [], _ => Except.ok ()
  | existingBook :: rest, book =>
      if existingBook.getISBN == book.getISBN then
        Except.error (BookException.ExistingBookISBNException existingISBNMsg book.getISBN)
      else
        AddBook.loop rest book

/-- The member `Library::AddBook` (lines 147-155): the loop, then `push_back`
when the loop did not throw. -/
def Library.AddBook (self : Library) (book : Book) : Except BookException Unit × Library :=
  match AddBook.loop self.books book with
  | Except.error ex => (Except.error ex, self)
  | Except.ok () => (Except.ok (), { books := self.books ++ [book] })

/-- The member `Library::RemoveBook` (lines 139-144): `find`, then `erase` at the
found position unless it is `end()`. -/
def Library.RemoveBook (self : Library) (book : Book) : Except BookException Unit × Library :=
  let bookToErase := find self.books book
  if bookToErase ≠ self.books.length then
    (Except.ok (), { books := self.books.eraseIdx bookToErase })
  else
    (Except.ok (), self)

/-- The loop of `SearchBookById` (lines 159-162): returns the first book whose id
is the one searched, throws after the loop when there is none. -/
def SearchBookById.loop : List Book → Int → Except BookException Book
  | [], id => Except.error (BookException.BookNotFoundException bookNotFoundMsg id)
  | b :: rest, id => if b.getId == id then Except.ok b else SearchBookById.loop rest id

/-- The member `Library::SearchBookById` (lines 158-163); it never writes to
`books`. -/
def Library.SearchBookById (self : Library) (id : Int) : Except BookException Book × Library :=
  (SearchBookById.loop self.books id, self)

/-! ## Sequences of calls -/

/-- One call on a `Library` object by a client. -/
inductive Call where
  | add (book : Book)
  | remove (book : Book)
  | search (id : Int)
  deriving DecidableEq, Repr

/-- The library after one call, whether the call returned or threw. -/
def Library.step (self : Library) : Call → Library
  | Call.add book => (self.AddBook book).2
  | Call.remove book => (self.RemoveBook book).2
  | Call.search id => (self.SearchBookById id).2

/-- The library after a finite sequence of calls, made in order. -/
def Library.run (self : Library) (calls : List Call) : Library :=
  calls.foldl Library.step self

/-- No two entries at distinct positions carry the same ISBN. -/
def UniqueISBN (lib : Library) : Prop :=
  ∀ i j : Fin lib.books.length, i ≠ j → (lib.books.get i).ISBN ≠ (lib.books.get j).ISBN

instance (lib : Library) : Decidable (UniqueISBN lib) := by
  unfold UniqueISBN
  infer_instance

/-- No two entries at distinct positions carry the same identifier. -/
def UniqueId (lib : Library) : Prop :=
  ∀ i j : Fin lib.books.length, i ≠ j → (lib.books.get i).id ≠ (lib.books.get j).id

instance (lib : Library) : Decidable (UniqueId lib) := by
  unfold UniqueId
  infer_instance

/-! ## Messages -/

/-- The standard library function `std::to_string(int)`: the decimal digits of
the absolute value, after a `-` when the value is negative. -/
def to_string (n : Int) : String :=
  if n < 0 then "-" ++ Nat.repr n.natAbs else Nat.repr n.natAbs

/-- The members `BookNotFoundException::getMsg` (lines 75-77) and
`ExistingBookISBNException::getMsg` (lines 92-94), the two overrides of
`IBookExceptions::getMsg`: the stored message, a space, the stored integer. -/
def BookException.getMsg : BookException → String
  | BookException.BookNotFoundException msg id => msg ++ " " ++ to_string id
  | BookException.ExistingBookISBNException msg ISBN => msg ++ " " ++ to_string ISBN

/-! ## A client holding a book variable -/

/-- One setter call on a `Book` object. -/
inductive Setter where
  | setId (id : Int)
  | setTitle (title : String)
  | setAuthor (author : String)
  | setISBN (ISBN : Int)
  deriving DecidableEq, Repr

/-- The book after one setter call on it. -/
def Book.apply (self : Book) : Setter → Book
  | Setter.setId id => self.setId id
  | Setter.setTitle title => self.setTitle title
  | Setter.setAuthor author => self.setAuthor author
  | Setter.setISBN ISBN => self.setISBN ISBN

/-- The objects a caller such as `main` holds: a `Library` (line 167) and a `Book`
variable `foundBook` (line 179). -/
structure Client where
  library : Library
  foundBook : Book
  deriving DecidableEq, Repr

/-- The statement `foundBook = library.SearchBookById(id)` (line 182): the
returned `Book` value is assigned to the variable; when the call throws the
variable keeps its value. -/
def Client.search (self : Client) (id : Int) : Except BookException Unit × Client :=
  match self.library.SearchBookById id with
  | (Except.error ex, library) => (Except.error ex, { self with library := library })
  | (Except.ok b, library) => (Except.ok (), { library := library, foundBook := b })

/-- A setter call on the variable `foundBook` of the client. -/
def Client.mutate (self : Client) (s : Setter) : Client :=
  { self with foundBook := self.foundBook.apply s }

/-! ## The driver -/

/-- The statement `cout << s << endl`: the text, then a newline, after what was
written before. -/
def coutLine (stdout s : String) : String :=
  stdout ++ s ++ "\n"

/-- The body of the first `try` block of `main` (lines 172-173): the second
`AddBook` runs only when the first did not throw. -/
def main.tryAddBooks (library : Library) (book1 book2 : Book) :
    Except BookException Unit × Library :=
  match library.AddBook book1 with
  | (Except.error ex, library) => (Except.error ex, library)
  | (Except.ok (), library) => library.AddBook book2

/-- Lines 179-188 of `main`: the variable `foundBook`, the second `try` block with
its handler for `BookNotFoundException` only, and `return 0`.  The outcome is
the exit status, or the exception that leaves `main` uncaught. -/
def main.searchPart (library : Library) (book1 : Book) (stdout : String) :
    Except BookException Int × String :=
  let client : Client := { library := library, foundBook := book1 }
  match client.search 5 with
  | (Except.error (BookException.BookNotFoundException msg id), _) =>
      (Except.ok 0, coutLine stdout (BookException.BookNotFoundException msg id).getMsg)
  | (Except.error (BookException.ExistingBookISBNException msg ISBN), _) =>
      (Except.error (BookException.ExistingBookISBNException msg ISBN), stdout)
  | (Except.ok (), _) => (Except.ok 0, stdout)

/-- The function `main` (lines 166-189): the outcome and the text written to
standard output.  The handler of the first `try` block catches
`ExistingBookISBNException` only. -/
def main : Except BookException Int × String :=
  let library : Library := Library.empty
  let book1 : Book := Book.mk "Book 1" "Author 1" 1 57439
  let book2 : Book := Book.mk "Book 2" "Author 2" 2 57439
  match main.tryAddBooks library book1 book2 with
  | (Except.error (BookException.ExistingBookISBNException msg ISBN), library) =>
      main.searchPart library book1
        (coutLine "" (BookException.ExistingBookISBNException msg ISBN).getMsg)
  | (Except.error (BookException.BookNotFoundException msg id), _) =>
      (Except.error (BookException.BookNotFoundException msg id), "")
  | (Except.ok (), library) => main.searchPart library book1 ""

/-! ## Helper lemmas -/

theorem Book.operator_eq_iff (x y : Book) : x.operator_eq y = true ↔ x = y := by
  cases x; cases y
  simp only [Book.operator_eq, Book.mk.injEq]
  constructor
  · intro h
    simp at h
    tauto
  · intro h
    simp
    tauto

theorem AddBook.loop_error_iff (books : List Book) (book : Book) :
    (∃ ex, AddBook.loop books book = Except.error ex) ↔ ∃ e ∈ books, e.ISBN = book.ISBN := by
  induction books with
  | nil => simp [AddBook.loop]
  | cons x rest ih =>
    by_cases h : x.ISBN = book.ISBN
    · simp [AddBook.loop, Book.getISBN, h]
    · simp [AddBook.loop, Book.getISBN, h, ih]

theorem AddBook.loop_error_eq (books : List Book) (book : Book) (ex : BookException)
    (h : AddBook.loop books book = Except.error ex) :
    ex = BookException.ExistingBookISBNException existingISBNMsg book.ISBN := by
  induction books with
  | nil => simp [AddBook.loop] at h
  | cons x rest ih =>
    by_cases hx : x.ISBN = book.ISBN
    · simp [AddBook.loop, Book.getISBN, hx] at h
      exact h.symm
    · simp [AddBook.loop, Book.getISBN, hx] at h
      exact ih h

theorem AddBook.loop_ok_of_fresh (books : List Book) (book : Book)
    (h : ∀ e ∈ books, e.ISBN ≠ book.ISBN) : AddBook.loop books book = Except.ok () := by
  induction books with
  | nil => rfl
  | cons x rest ih =>
    have hx : x.ISBN ≠ book.ISBN := h x (List.mem_cons_self _ _)
    have hr : ∀ e ∈ rest, e.ISBN ≠ book.ISBN := fun e he => h e (List.mem_cons_of_mem _ he)
    simp [AddBook.loop, Book.getISBN, hx, ih hr]

theorem AddBook_of_fresh (lib : Library) (b : Book)
    (h : ∀ e ∈ lib.books, e.ISBN ≠ b.ISBN) :
    lib.AddBook b = (Except.ok (), { books := lib.books ++ [b] }) := by
  simp [Library.AddBook, AddBook.loop_ok_of_fresh lib.books b h]

theorem AddBook_of_duplicate (lib : Library) (b : Book)
    (h : ∃ e ∈ lib.books, e.ISBN = b.ISBN) :
    lib.AddBook b =
      (Except.error (BookException.ExistingBookISBNException existingISBNMsg b.ISBN), lib) := by
  obtain ⟨ex, hex⟩ := (AddBook.loop_error_iff lib.books b).2 h
  have hex2 := AddBook.loop_error_eq _ _ _ hex
  subst hex2
  simp [Library.AddBook, hex]

/-- Every list with an element satisfying `p` splits at the first such element. -/
theorem exists_first_split {α : Type} (p : α → Bool) (l : List α) (h : ∃ x ∈ l, p x = true) :
    ∃ pre e post, l = pre ++ e :: post ∧ p e = true ∧ ∀ x ∈ pre, p x = false := by
  induction l with
  | nil => simp at h
  | cons a rest ih =>
    by_cases ha : p a = true
    · exact ⟨[], a, rest, rfl, ha, by simp⟩
    · have hr : ∃ x ∈ rest, p x = true := by
        obtain ⟨x, hx, hpx⟩ := h
        rcases List.mem_cons.1 hx with rfl | hx2
        · exact absurd hpx ha
        · exact ⟨x, hx2, hpx⟩
      obtain ⟨pre, e, post, hl, he, hpre⟩ := ih hr
      refine ⟨a :: pre, e, post, by simp [hl], he, ?_⟩
      intro x hx
      rcases List.mem_cons.1 hx with rfl | hx2
      · simpa using ha
      · exact hpre x hx2

theorem SearchBookById.loop_split (pre post : List Book) (e : Book) (id : Int)
    (he : e.id = id) (hpre : ∀ x ∈ pre, x.id ≠ id) :
    SearchBookById.loop (pre ++ e :: post) id = Except.ok e := by
  induction pre with
  | nil => simp [SearchBookById.loop, Book.getId, he]
  | cons a rest ih =>
    have ha : a.id ≠ id := hpre a (List.mem_cons_self _ _)
    have hr : ∀ x ∈ rest, x.id ≠ id := fun x hx => hpre x (List.mem_cons_of_mem _ hx)
    simp [SearchBookById.loop, Book.getId, ha, ih hr]

theorem SearchBookById.loop_absent (books : List Book) (id : Int)
    (h : ∀ x ∈ books, x.id ≠ id) :
    SearchBookById.loop books id =
      Except.error (BookException.BookNotFoundException bookNotFoundMsg id) := by
  induction books with
  | nil => rfl
  | cons a rest ih =>
    have ha : a.id ≠ id := h a (List.mem_cons_self _ _)
    have hr : ∀ x ∈ rest, x.id ≠ id := fun x hx => h x (List.mem_cons_of_mem _ hx)
    simp [SearchBookById.loop, Book.getId, ha, ih hr]

theorem find_split (pre post : List Book) (e b : Book)
    (he : e.operator_eq b = true) (hpre : ∀ x ∈ pre, x.operator_eq b = false) :
    find (pre ++ e :: post) b = pre.length := by
  induction pre with
  | nil => simp [find, he]
  | cons a rest ih =>
    have ha : a.operator_eq b = false := hpre a (List.mem_cons_self _ _)
    have hr : ∀ x ∈ rest, x.operator_eq b = false :=
      fun x hx => hpre x (List.mem_cons_of_mem _ hx)
    simp [find, ha, ih hr]

theorem find_absent (books : List Book) (b : Book)
    (h : ∀ x ∈ books, x.operator_eq b = false) : find books b = books.length := by
  induction books with
  | nil => rfl
  | cons a rest ih =>
    have ha : a.operator_eq b = false := h a (List.mem_cons_self _ _)
    have hr : ∀ x ∈ rest, x.operator_eq b = false :=
      fun x hx => h x (List.mem_cons_of_mem _ hx)
    simp [find, ha, ih hr]

theorem eraseIdx_split {α : Type} (pre post : List α) (e : α) :
    (pre ++ e :: post).eraseIdx pre.length = pre ++ post := by
  induction pre with
  | nil => rfl
  | cons a rest ih => simp [List.eraseIdx, ih]

theorem RemoveBook_split (pre post : List Book) (e b : Book)
    (he : e.operator_eq b = true) (hpre : ∀ x ∈ pre, x.operator_eq b = false) :
    Library.RemoveBook { books := pre ++ e :: post } b =
      (Except.ok (), { books := pre ++ post }) := by
  simp [Library.RemoveBook, find_split pre post e b he hpre, eraseIdx_split]

theorem RemoveBook_absent (lib : Library) (b : Book)
    (h : ∀ x ∈ lib.books, x.operator_eq b = false) :
    lib.RemoveBook b = (Except.ok (), lib) := by
  simp [Library.RemoveBook, find_absent lib.books b h]

theorem uniqueISBN_of_nodup (lib : Library) (h : (lib.books.map Book.ISBN).Nodup) :
    UniqueISBN lib := by
  intro i j hij heq
  have hinj := List.nodup_iff_injective_get.1 h
  have hi : i.1 < (lib.books.map Book.ISBN).length := by simp
  have hj : j.1 < (lib.books.map Book.ISBN).length := by simp
  have hfin := @hinj ⟨i.1, hi⟩ ⟨j.1, hj⟩ (by simpa using heq)
  exact hij (Fin.ext (by simpa using congrArg Fin.val hfin))

theorem AddBook_keeps_nodup (lib : Library) (b : Book)
    (h : (lib.books.map Book.ISBN).Nodup) : ((lib.AddBook b).2.books.map Book.ISBN).Nodup := by
  by_cases hdup : ∃ e ∈ lib.books, e.ISBN = b.ISBN
  · rw [AddBook_of_duplicate lib b hdup]
    exact h
  · push_neg at hdup
    rw [AddBook_of_fresh lib b hdup]
    simp only [List.map_append, List.map_cons, List.map_nil]
    refine List.Nodup.append h (List.nodup_singleton _) ?_
    intro v hv hv2
    obtain ⟨e, he, rfl⟩ := List.mem_map.1 hv
    exact hdup e he (List.mem_singleton.1 hv2)

theorem RemoveBook_keeps_nodup (lib : Library) (b : Book)
    (h : (lib.books.map Book.ISBN).Nodup) :
    ((lib.RemoveBook b).2.books.map Book.ISBN).Nodup := by
  unfold Library.RemoveBook
  simp only
  split
  · exact h.sublist ((List.eraseIdx_sublist lib.books _).map Book.ISBN)
  · exact h

theorem step_keeps_nodup (lib : Library) (c : Call)
    (h : (lib.books.map Book.ISBN).Nodup) : ((lib.step c).books.map Book.ISBN).Nodup := by
  cases c with
  | add book => exact AddBook_keeps_nodup lib book h
  | remove book => exact RemoveBook_keeps_nodup lib book h
  | search id => exact h

theorem run_keeps_nodup (calls : List Call) (lib : Library)
    (h : (lib.books.map Book.ISBN).Nodup) : ((lib.run calls).books.map Book.ISBN).Nodup := by
  induction calls generalizing lib with
  | nil => exact h
  | cons c rest ih => exact ih (lib.step c) (step_keeps_nodup lib c h)

theorem AddBook_ok_fresh (lib : Library) (b : Book) (h : (lib.AddBook b).1 = Except.ok ()) :
    ∀ e ∈ lib.books, e.ISBN ≠ b.ISBN := by
  intro e he heq
  rw [AddBook_of_duplicate lib b ⟨e, he, heq⟩] at h
  cases h

theorem AddBook_error_eq (lib : Library) (b : Book) (ex : BookException)
    (h : (lib.AddBook b).1 = Except.error ex) :
    ex = BookException.ExistingBookISBNException existingISBNMsg b.ISBN := by
  by_cases hdup : ∃ e ∈ lib.books, e.ISBN = b.ISBN
  · rw [AddBook_of_duplicate lib b hdup] at h
    cases h
    rfl
  · push_neg at hdup
    rw [AddBook_of_fresh lib b hdup] at h
    cases h

theorem SearchBookById.loop_thrown_eq (books : List Book) (id : Int) (ex : BookException)
    (h : SearchBookById.loop books id = Except.error ex) :
    ex = BookException.BookNotFoundException bookNotFoundMsg id := by
  induction books with
  | nil =>
    simp only [SearchBookById.loop] at h
    cases h
    rfl
  | cons a rest ih =>
    by_cases ha : a.id = id
    · simp [SearchBookById.loop, Book.getId, ha] at h
    · simp only [SearchBookById.loop, Book.getId, beq_iff_eq, ha, if_false] at h
      exact ih h

theorem SearchBookById.loop_append_ok (l l2 : List Book) (id : Int) (e : Book)
    (h : SearchBookById.loop l id = Except.ok e) :
    SearchBookById.loop (l ++ l2) id = Except.ok e := by
  induction l with
  | nil => simp [SearchBookById.loop] at h
  | cons a rest ih =>
    by_cases ha : a.id = id
    · simpa [SearchBookById.loop, Book.getId, ha] using h
    · simp only [SearchBookById.loop, Book.getId, beq_iff_eq, ha, if_false] at h
      simpa [SearchBookById.loop, Book.getId, ha] using ih h

theorem SearchBookById.loop_error_absent (l : List Book) (id : Int) (ex : BookException)
    (h : SearchBookById.loop l id = Except.error ex) : ∀ x ∈ l, x.id ≠ id := by
  induction l with
  | nil => simp
  | cons a rest ih =>
    by_cases ha : a.id = id
    · simp [SearchBookById.loop, Book.getId, ha] at h
    · simp only [SearchBookById.loop, Book.getId, beq_iff_eq, ha, if_false] at h
      intro x hx
      rcases List.mem_cons.1 hx with rfl | hx2
      · exact ha
      · exact ih h x hx2

theorem SearchBookById.loop_unique (books : List Book) (id : Int) (e : Book)
    (he : e ∈ books) (hid : e.id = id)
    (hone : books.countP (fun x => x.getId == id) = 1) :
    SearchBookById.loop books id = Except.ok e := by
  obtain ⟨pre, x, post, hl, hx, hpre⟩ :=
    exists_first_split (fun x : Book => decide (x.id = id)) books ⟨e, he, by simpa using hid⟩
  have hxid : x.id = id := by simpa using hx
  have hpre2 : ∀ y ∈ pre, y.id ≠ id := fun y hy => by simpa using hpre y hy
  have hres := SearchBookById.loop_split pre post x id hxid hpre2
  subst hl
  rw [hres]
  have hex : e = x := by
    rcases List.mem_append.1 he with h1 | h2
    · exact absurd hid (hpre2 e h1)
    · rcases List.mem_cons.1 h2 with h3 | h4
      · exact h3
      · exfalso
        have hpos : 0 < post.countP (fun y => y.getId == id) :=
          List.countP_pos_iff.2 ⟨e, h4, by simpa [Book.getId] using hid⟩
        rw [List.countP_append, List.countP_cons] at hone
        simp only [Book.getId, hxid, beq_self_eq_true, if_true] at hone hpos
        omega
  rw [hex]

theorem Client.foldl_mutate_library (setters : List Setter) (c : Client) :
    (setters.foldl Client.mutate c).library = c.library := by
  induction setters generalizing c with
  | nil => rfl
  | cons s rest ih =>
    simp only [List.foldl_cons]
    rw [ih]
    rfl

theorem Client.search_of_ok (c : Client) (id : Int) (e : Book)
    (h : SearchBookById.loop c.library.books id = Except.ok e) :
    c.search id = (Except.ok (), { library := c.library, foundBook := e }) := by
  simp [Client.search, Library.SearchBookById, h]

theorem nodup_map_of_distinct (f : Book → Int) (l : List Book)
    (h : ∀ i j : Fin l.length, i ≠ j → f (l.get i) ≠ f (l.get j)) : (l.map f).Nodup := by
  rw [List.nodup_iff_injective_get]
  intro i j hij
  by_contra hne
  have hi : i.1 < l.length := by simpa using i.2
  have hj : j.1 < l.length := by simpa using j.2
  refine h ⟨i.1, hi⟩ ⟨j.1, hj⟩ ?_ ?_
  · intro heq
    have hv : i.1 = j.1 := by simpa using congrArg Fin.val heq
    exact hne (Fin.ext hv)
  · simpa using hij

theorem RemoveBook_clears_of_nodup (lib : Library) (b : Book)
    (hn : (lib.books.map Book.ISBN).Nodup) :
    (∀ x ∈ (lib.RemoveBook b).2.books, x.operator_eq b = false) ∧
    ((∃ e ∈ lib.books, e.operator_eq b = true) →
      ∀ x ∈ (lib.RemoveBook b).2.books, x.ISBN ≠ b.ISBN) := by
  by_cases hex : ∃ e ∈ lib.books, e.operator_eq b = true
  · obtain ⟨pre, e, post, hl, he, hpre⟩ :=
      exists_first_split (fun x : Book => x.operator_eq b) lib.books hex
    have heb : e = b := (Book.operator_eq_iff e b).1 he
    have hlib : lib = { books := pre ++ e :: post } := by
      cases lib
      simp only [Library.mk.injEq]
      exact hl
    rw [hl, List.map_append, List.map_cons] at hn
    have hfresh : ∀ x ∈ pre ++ post, x.ISBN ≠ b.ISBN := by
      intro x hx hxb
      rw [List.nodup_append] at hn
      obtain ⟨_, hn2, hdis⟩ := hn
      rcases List.mem_append.1 hx with h1 | h2
      · exact hdis (List.mem_map_of_mem Book.ISBN h1)
          (by rw [hxb, heb]; exact List.mem_cons_self _ _)
      · exact (List.nodup_cons.1 hn2).1
          (by rw [heb, ← hxb]; exact List.mem_map_of_mem Book.ISBN h2)
    rw [hlib, RemoveBook_split pre post e b he hpre]
    refine ⟨?_, fun _ => hfresh⟩
    intro x hx
    cases hb : x.operator_eq b with
    | false => rfl
    | true =>
      exact absurd (congrArg Book.ISBN ((Book.operator_eq_iff x b).1 hb)) (hfresh x hx)
  · have habs : ∀ x ∈ lib.books, x.operator_eq b = false := by
      intro x hx
      cases hb : x.operator_eq b with
      | false => rfl
      | true => exact absurd ⟨x, hx, hb⟩ hex
    rw [RemoveBook_absent lib b habs]
    exact ⟨habs, fun h => absurd h hex⟩

theorem to_string_eq_toString (n : Int) : to_string n = toString n := by
  cases n with
  | ofNat m =>
    have h : ¬ (Int.ofNat m < 0) := by simp
    simp only [to_string, h, if_false]
    rfl
  | negSucc m =>
    have h : Int.negSucc m < 0 := Int.negSucc_lt_zero m
    simp only [to_string, h, if_true]
    rfl

/-! ## Claims -/

/-- C1: `AddBook` throws exactly when some stored book has the ISBN of the new
book; what it throws is then `ExistingBookISBNException` with the fixed message
and the ISBN of the new book, and the library after the call is the library
before it. -/
theorem AddBook_fails_iff_duplicate_ISBN (lib : Library) (b : Book) :
    ((∃ ex, (lib.AddBook b).1 = Except.error ex) ↔ ∃ e ∈ lib.books, e.ISBN = b.ISBN) ∧
    (∀ ex, (lib.AddBook b).1 = Except.error ex →
      ex = BookException.ExistingBookISBNException existingISBNMsg b.ISBN ∧
      (lib.AddBook b).2 = lib ∧
      (lib.AddBook b).2.books.length = lib.books.length) := by
  have key : ∀ ex, (lib.AddBook b).1 = Except.error ex →
      AddBook.loop lib.books b = Except.error ex ∧ (lib.AddBook b).2 = lib := by
    intro ex hex
    unfold Library.AddBook at hex ⊢
    split at hex
    · next ex2 heq => simp at hex; subst hex; simp [heq]
    · simp at hex
  refine ⟨⟨?_, ?_⟩, ?_⟩
  · rintro ⟨ex, hex⟩
    exact (AddBook.loop_error_iff lib.books b).1 ⟨ex, (key ex hex).1⟩
  · intro h
    obtain ⟨ex, hex⟩ := (AddBook.loop_error_iff lib.books b).2 h
    exact ⟨ex, by simp [Library.AddBook, hex]⟩
  · intro ex hex
    obtain ⟨h1, h2⟩ := key ex hex
    exact ⟨AddBook.loop_error_eq _ _ _ h1, h2, by rw [h2]⟩

/-- C2: when no stored book has the ISBN of the new book, `AddBook` returns
normally and the library afterwards is the old sequence followed by the new
book: one entry more, every old position holding what it held, the new book
last. -/
theorem AddBook_appends_when_ISBN_fresh (lib : Library) (b : Book)
    (h : ∀ e ∈ lib.books, e.ISBN ≠ b.ISBN) :
    (lib.AddBook b).1 = Except.ok () ∧
    (lib.AddBook b).2.books = lib.books ++ [b] ∧
    (lib.AddBook b).2.books.length = lib.books.length + 1 ∧
    (∀ i, i < lib.books.length → (lib.AddBook b).2.books[i]? = lib.books[i]?) ∧
    (lib.AddBook b).2.books.getLast? = some b := by
  rw [AddBook_of_fresh lib b h]
  refine ⟨rfl, rfl, by simp, ?_, by simp⟩
  intro i hi
  simp [List.getElem?_append_left hi]

theorem AddBook_appends_when_ISBN_fresh_witness :
    (Library.AddBook { books := [Book.mk "Book 1" "Author 1" 1 57439] }
        (Book.mk "Book 3" "Author 3" 1 111)).2.books
      = [Book.mk "Book 1" "Author 1" 1 57439] ++ [Book.mk "Book 3" "Author 3" 1 111] :=
  (AddBook_appends_when_ISBN_fresh { books := [Book.mk "Book 1" "Author 1" 1 57439] }
    (Book.mk "Book 3" "Author 3" 1 111) (by decide)).2.1

/-- C3: `SearchBookById` throws exactly when no stored book has the searched
id; what it throws is then `BookNotFoundException` with the fixed message and
the searched id; the library is the same after the call, thrown or not. -/
theorem SearchBookById_fails_iff_absent (lib : Library) (id : Int) :
    ((∃ ex, (lib.SearchBookById id).1 = Except.error ex) ↔ ∀ e ∈ lib.books, e.id ≠ id) ∧
    (∀ ex, (lib.SearchBookById id).1 = Except.error ex →
      ex = BookException.BookNotFoundException bookNotFoundMsg id) ∧
    (lib.SearchBookById id).2 = lib := by
  have hpos : (∃ e ∈ lib.books, e.id = id) → ∃ e, (lib.SearchBookById id).1 = Except.ok e := by
    intro h
    obtain ⟨pre, e, post, hl, he, hpre⟩ :=
      exists_first_split (fun x : Book => decide (x.id = id)) lib.books (by simpa using h)
    refine ⟨e, ?_⟩
    simp only [Library.SearchBookById, hl]
    exact SearchBookById.loop_split pre post e id (by simpa using he)
      (fun x hx => by simpa using hpre x hx)
  have hneg : (∀ e ∈ lib.books, e.id ≠ id) → (lib.SearchBookById id).1 =
      Except.error (BookException.BookNotFoundException bookNotFoundMsg id) := by
    intro h
    exact SearchBookById.loop_absent lib.books id h
  refine ⟨⟨?_, ?_⟩, ?_, rfl⟩
  · rintro ⟨ex, hex⟩ e he heq
    obtain ⟨e2, he2⟩ := hpos ⟨e, he, heq⟩
    rw [he2] at hex
    cases hex
  · intro h
    exact ⟨_, hneg h⟩
  · intro ex hex
    by_cases h : ∀ e ∈ lib.books, e.id ≠ id
    · rw [hneg h] at hex
      cases hex
      rfl
    · push_neg at h
      obtain ⟨e2, he2⟩ := hpos h
      rw [he2] at hex
      cases hex

/-- C4: when some stored book has the searched id, `SearchBookById` returns
the first such book in insertion order: the library does split at a first
match, and for every split `pre ++ e :: post` with `e.id = id` and no book of
`pre` with that id the call returns `e` itself, all four fields as stored,
whatever `post` holds; the library is unchanged. -/
theorem SearchBookById_returns_first_match (lib : Library) (id : Int)
    (h : ∃ e ∈ lib.books, e.id = id) :
    (∃ pre e post, lib.books = pre ++ e :: post ∧ e.id = id ∧ ∀ x ∈ pre, x.id ≠ id) ∧
    (∀ pre e post, lib.books = pre ++ [e] ++ post → e.id = id → (∀ x ∈ pre, x.id ≠ id) →
      (lib.SearchBookById id).1 = Except.ok e ∧
      ∀ r, (lib.SearchBookById id).1 = Except.ok r →
        r.title = e.title ∧ r.author = e.author ∧ r.id = e.id ∧ r.ISBN = e.ISBN) ∧
    (lib.SearchBookById id).2 = lib := by
  refine ⟨?_, ?_, rfl⟩
  · obtain ⟨pre, e, post, hl, he, hpre⟩ :=
      exists_first_split (fun x : Book => decide (x.id = id)) lib.books (by simpa using h)
    exact ⟨pre, e, post, hl, by simpa using he, fun x hx => by simpa using hpre x hx⟩
  · intro pre e post hl he hpre
    have hres : (lib.SearchBookById id).1 = Except.ok e := by
      simp only [Library.SearchBookById, hl, List.append_assoc, List.singleton_append]
      exact SearchBookById.loop_split pre post e id he hpre
    refine ⟨hres, ?_⟩
    intro r hr
    rw [hres] at hr
    cases hr
    exact ⟨rfl, rfl, rfl, rfl⟩

theorem SearchBookById_returns_first_match_witness :
    (Library.SearchBookById
        { books := [Book.mk "A" "X" 1 10, Book.mk "B" "Y" 2 20, Book.mk "C" "Z" 2 30] } 2).1
      = Except.ok (Book.mk "B" "Y" 2 20) :=
  ((SearchBookById_returns_first_match
      { books := [Book.mk "A" "X" 1 10, Book.mk "B" "Y" 2 20, Book.mk "C" "Z" 2 30] } 2
      ⟨Book.mk "B" "Y" 2 20, by decide, rfl⟩).2.1
    [Book.mk "A" "X" 1 10] (Book.mk "B" "Y" 2 20) [Book.mk "C" "Z" 2 30]
    rfl rfl (by decide)).1

/-- C5: when some stored book is equal (by `operator==`) to `b`, `RemoveBook`
erases the first such book and nothing else: the library does split at a first
match, for every split `pre ++ [e] ++ post` with `e == b` and no book of `pre`
equal to `b` the library afterwards is `pre ++ post`, and the size goes down
by exactly one. -/
theorem RemoveBook_erases_first_match (lib : Library) (b : Book)
    (h : ∃ e ∈ lib.books, e.operator_eq b = true) :
    (∃ pre e post, lib.books = pre ++ e :: post ∧ e.operator_eq b = true ∧
      ∀ x ∈ pre, x.operator_eq b = false) ∧
    (∀ pre e post, lib.books = pre ++ [e] ++ post → e.operator_eq b = true →
      (∀ x ∈ pre, x.operator_eq b = false) →
      (lib.RemoveBook b).2.books = pre ++ post) ∧
    (lib.RemoveBook b).2.books.length + 1 = lib.books.length ∧
    (lib.RemoveBook b).1 = Except.ok () := by
  obtain ⟨pre, e, post, hl, he, hpre⟩ :=
    exists_first_split (fun x : Book => x.operator_eq b) lib.books h
  have hlib : lib = { books := pre ++ e :: post } := by
    cases lib
    simp only [Library.mk.injEq]
    exact hl
  refine ⟨⟨pre, e, post, hl, he, hpre⟩, ?_, ?_, ?_⟩
  · intro pre2 e2 post2 hl2 he2 hpre2
    have hlib2 : lib = { books := pre2 ++ e2 :: post2 } := by
      cases lib
      simp only [Library.mk.injEq]
      simpa using hl2
    rw [hlib2, RemoveBook_split pre2 post2 e2 b he2 hpre2]
  · rw [hlib, RemoveBook_split pre post e b he hpre]
    simp
    omega
  · rw [hlib, RemoveBook_split pre post e b he hpre]

theorem RemoveBook_erases_first_match_witness :
    (Library.RemoveBook
        { books := [Book.mk "A" "X" 1 10, Book.mk "B" "Y" 2 20, Book.mk "C" "Z" 3 30] }
        (Book.mk "B" "Y" 2 20)).2.books
      = [Book.mk "A" "X" 1 10] ++ [Book.mk "C" "Z" 3 30] :=
  (RemoveBook_erases_first_match
      { books := [Book.mk "A" "X" 1 10, Book.mk "B" "Y" 2 20, Book.mk "C" "Z" 3 30] }
      (Book.mk "B" "Y" 2 20) ⟨Book.mk "B" "Y" 2 20, by decide, by decide⟩).2.1
    [Book.mk "A" "X" 1 10] (Book.mk "B" "Y" 2 20) [Book.mk "C" "Z" 3 30]
    rfl (by decide) (by decide)

/-- C6: `RemoveBook` returns normally on every input, and when no stored book is
equal (by `operator==`) to `b`, also when stored books share the id or the
ISBN of `b`, the library afterwards is exactly the library before. -/
theorem RemoveBook_never_fails_and_absent_is_noop (lib : Library) (b : Book) :
    (lib.RemoveBook b).1 = Except.ok () ∧
    ((∀ x ∈ lib.books, x.operator_eq b = false) → (lib.RemoveBook b).2 = lib) := by
  constructor
  · unfold Library.RemoveBook
    simp only
    split <;> rfl
  · intro h
    rw [RemoveBook_absent lib b h]

theorem RemoveBook_never_fails_and_absent_is_noop_witness :
    (Library.RemoveBook { books := [Book.mk "Book 1" "Author 1" 1 57439] }
        (Book.mk "Book 2" "Author 1" 1 57439)).2
      = { books := [Book.mk "Book 1" "Author 1" 1 57439] } :=
  (RemoveBook_never_fails_and_absent_is_noop
    { books := [Book.mk "Book 1" "Author 1" 1 57439] }
    (Book.mk "Book 2" "Author 1" 1 57439)).2 (by decide)

/-- C7: after any finite sequence of `AddBook` (returning or throwing),
`RemoveBook` and `SearchBookById` calls on an initially empty library, no two
entries at distinct positions have the same ISBN. -/
theorem reachable_library_has_unique_ISBNs (calls : List Call) :
    UniqueISBN (Library.empty.run calls) :=
  uniqueISBN_of_nodup _ (run_keeps_nodup calls Library.empty (by simp [Library.empty]))

/-- C8: `operator==` yields `true` exactly when title, author, id and ISBN of
the two books are equal, and `false` otherwise; it yields a value for every
pair of books. -/
theorem operator_eq_true_iff_all_fields_equal (x y : Book) :
    (x.operator_eq y = true ↔
      (x.title = y.title ∧ x.author = y.author ∧ x.id = y.id ∧ x.ISBN = y.ISBN)) ∧
    (x.operator_eq y = false ↔
      ¬ (x.title = y.title ∧ x.author = y.author ∧ x.id = y.id ∧ x.ISBN = y.ISBN)) := by
  have h1 : x.operator_eq y = true ↔
      (x.title = y.title ∧ x.author = y.author ∧ x.id = y.id ∧ x.ISBN = y.ISBN) := by
    simp only [Book.operator_eq]
    constructor
    · intro h
      simp at h
      tauto
    · intro h
      simp
      tauto
  refine ⟨h1, ?_⟩
  rw [← h1]
  simp

/-- C9: for books `b1`, `b2` with the same ISBN, on an empty library
`AddBook(b1)` returns normally, the following `AddBook(b2)` throws
`ExistingBookISBNException` carrying the ISBN of `b2`, and the library then
holds the single entry `b1`. -/
theorem AddBook_twice_same_ISBN (b1 b2 : Book) (h : b1.ISBN = b2.ISBN) :
    (Library.empty.AddBook b1).1 = Except.ok () ∧
    ((Library.empty.AddBook b1).2.AddBook b2).1 =
      Except.error (BookException.ExistingBookISBNException existingISBNMsg b2.ISBN) ∧
    ((Library.empty.AddBook b1).2.AddBook b2).2.books = [b1] := by
  have h1 : Library.empty.AddBook b1 = (Except.ok (), { books := [b1] }) := by
    simpa [Library.empty] using AddBook_of_fresh Library.empty b1 (by simp [Library.empty])
  have h2 := AddBook_of_duplicate { books := [b1] } b2 ⟨b1, by simp, h⟩
  rw [h1]
  dsimp only
  rw [h2]
  exact ⟨rfl, rfl, rfl⟩

theorem AddBook_twice_same_ISBN_witness :
    ((Library.empty.AddBook (Book.mk "Book 1" "Author 1" 1 57439)).2.AddBook
        (Book.mk "Book 2" "Author 2" 2 57439)).2.books
      = [Book.mk "Book 1" "Author 1" 1 57439] :=
  (AddBook_twice_same_ISBN (Book.mk "Book 1" "Author 1" 1 57439)
    (Book.mk "Book 2" "Author 2" 2 57439) rfl).2.2

/-- C10: for books `b1`, `b2` with different ISBNs, whatever their other
fields, on an empty library `AddBook(b1)` and then `AddBook(b2)` both return
normally and the library then is the two-entry sequence `[b1, b2]`. -/
theorem AddBook_twice_distinct_ISBN (b1 b2 : Book) (h : b1.ISBN ≠ b2.ISBN) :
    (Library.empty.AddBook b1).1 = Except.ok () ∧
    ((Library.empty.AddBook b1).2.AddBook b2).1 = Except.ok () ∧
    ((Library.empty.AddBook b1).2.AddBook b2).2.books = [b1, b2] := by
  have h1 : Library.empty.AddBook b1 = (Except.ok (), { books := [b1] }) := by
    simpa [Library.empty] using AddBook_of_fresh Library.empty b1 (by simp [Library.empty])
  have h2 := AddBook_of_fresh { books := [b1] } b2 (by simpa using h)
  rw [h1]
  dsimp only
  rw [h2]
  exact ⟨rfl, rfl, rfl⟩

theorem AddBook_twice_distinct_ISBN_witness :
    ((Library.empty.AddBook (Book.mk "Book" "Author" 1 57439)).2.AddBook
        (Book.mk "Book" "Author" 1 57440)).2.books
      = [Book.mk "Book" "Author" 1 57439, Book.mk "Book" "Author" 1 57440] :=
  (AddBook_twice_distinct_ISBN (Book.mk "Book" "Author" 1 57439)
    (Book.mk "Book" "Author" 1 57440) (by decide)).2.2

/-- C11: for both exception kinds `getMsg()` is the fixed message text, one
space, and the decimal rendering of the carried integer (the rendering of
`Int` by the core library: the decimal digits, after a `-` for a negative
value): for what `AddBook` throws on book `b` the text of line 151 and
`b.ISBN`, for what `SearchBookById(id)` throws the text of line 162 and `id`,
for every integer, negative ones as well. -/
theorem getMsg_is_text_space_decimal (lib : Library) (b : Book) (id : Int) :
    (∀ ex, (lib.AddBook b).1 = Except.error ex →
      ex.getMsg =
        "ExistingBookISBNException Error: book by this ISBN already exists in this library!"
          ++ " " ++ toString b.ISBN) ∧
    (∀ ex, (lib.SearchBookById id).1 = Except.error ex →
      ex.getMsg =
        "BookNotFoundException Error: Could not find any book by the ID:"
          ++ " " ++ toString id) := by
  constructor
  · intro ex hex
    rw [AddBook_error_eq lib b ex hex, ← to_string_eq_toString]
    rfl
  · intro ex hex
    rw [SearchBookById.loop_thrown_eq lib.books id ex hex, ← to_string_eq_toString]
    rfl

theorem getMsg_is_text_space_decimal_witness :
    (BookException.ExistingBookISBNException existingISBNMsg (-57439)).getMsg =
        "ExistingBookISBNException Error: book by this ISBN already exists in this library! -57439" ∧
    (BookException.BookNotFoundException bookNotFoundMsg 2147483647).getMsg =
        "BookNotFoundException Error: Could not find any book by the ID: 2147483647" :=
  ⟨(getMsg_is_text_space_decimal { books := [Book.mk "Book 1" "Author 1" 1 (-57439)] }
      (Book.mk "Book 2" "Author 2" 2 (-57439)) 2147483647).1
      (BookException.ExistingBookISBNException existingISBNMsg (-57439)) rfl,
   (getMsg_is_text_space_decimal { books := [Book.mk "Book 1" "Author 1" 1 (-57439)] }
      (Book.mk "Book 2" "Author 2" 2 (-57439)) 2147483647).2
      (BookException.BookNotFoundException bookNotFoundMsg 2147483647) rfl⟩

/-- C12: the scenario of `main`, call by call: on an empty library
`AddBook(Book("Book 1","Author 1",1,57439))` returns normally;
`AddBook(Book("Book 2","Author 2",2,57439))` then throws and the message of
what it throws ends with `57439`; `SearchBookById(5)` throws and its message
ends with `5`; `SearchBookById(1)` returns the book with title "Book 1",
author "Author 1", id 1 and ISBN 57439. -/
theorem scenario_of_main :
    (Library.empty.AddBook (Book.mk "Book 1" "Author 1" 1 57439)).1 = Except.ok () ∧
    (∃ ex, ((Library.empty.AddBook (Book.mk "Book 1" "Author 1" 1 57439)).2.AddBook
        (Book.mk "Book 2" "Author 2" 2 57439)).1 = Except.error ex ∧
      ex.getMsg =
        "ExistingBookISBNException Error: book by this ISBN already exists in this library! 57439" ∧
      "57439".data <:+ ex.getMsg.data) ∧
    (∃ ex, (((Library.empty.AddBook (Book.mk "Book 1" "Author 1" 1 57439)).2.AddBook
        (Book.mk "Book 2" "Author 2" 2 57439)).2.SearchBookById 5).1 = Except.error ex ∧
      ex.getMsg = "BookNotFoundException Error: Could not find any book by the ID: 5" ∧
      "5".data <:+ ex.getMsg.data) ∧
    (∃ r, (((Library.empty.AddBook (Book.mk "Book 1" "Author 1" 1 57439)).2.AddBook
        (Book.mk "Book 2" "Author 2" 2 57439)).2.SearchBookById 1).1 = Except.ok r ∧
      r.getTitle = "Book 1" ∧ r.getAuthor = "Author 1" ∧ r.getId = 1 ∧ r.getISBN = 57439) := by
  refine ⟨rfl, ⟨_, rfl, rfl, by decide⟩, ⟨_, rfl, rfl, by decide⟩, ⟨_, rfl, rfl, rfl, rfl, rfl⟩⟩

/-- C13: for a client whose library holds exactly one entry `e` with
identifier `id`, `foundBook = library.SearchBookById(id)` returns normally and
leaves in `foundBook` a book equal (by `operator==`) to `e`; after any setter
calls on `foundBook` the library is what it was, and a second
`SearchBookById(id)` again returns a book equal to `e`. -/
theorem search_result_is_isolated_copy (c : Client) (id : Int) (e : Book)
    (he : e ∈ c.library.books) (hid : e.id = id)
    (hone : c.library.books.countP (fun x => x.getId == id) = 1)
    (setters : List Setter) :
    (c.search id).1 = Except.ok () ∧
    (c.search id).2.foundBook.operator_eq e = true ∧
    (setters.foldl Client.mutate (c.search id).2).foundBook
      = setters.foldl Book.apply (c.search id).2.foundBook ∧
    (setters.foldl Client.mutate (c.search id).2).library = c.library ∧
    ((setters.foldl Client.mutate (c.search id).2).search id).1 = Except.ok () ∧
    ((setters.foldl Client.mutate (c.search id).2).search id).2.foundBook.operator_eq e
      = true := by
  have hloop := SearchBookById.loop_unique c.library.books id e he hid hone
  have h1 := Client.search_of_ok c id e hloop
  have hlib : (setters.foldl Client.mutate (c.search id).2).library = c.library := by
    rw [Client.foldl_mutate_library, h1]
  have h2 := Client.search_of_ok (setters.foldl Client.mutate (c.search id).2) id e
    (by rw [hlib]; exact hloop)
  have hfound : ∀ (l : List Setter) (d : Client),
      (l.foldl Client.mutate d).foundBook = l.foldl Book.apply d.foundBook := by
    intro l
    induction l with
    | nil => intro d; rfl
    | cons s rest ih => intro d; simp only [List.foldl_cons]; rw [ih]; rfl
  refine ⟨?_, ?_, hfound _ _, hlib, ?_, ?_⟩
  · rw [h1]
  · rw [h1]
    exact (Book.operator_eq_iff e e).2 rfl
  · rw [h2]
  · rw [h2]
    exact (Book.operator_eq_iff e e).2 rfl

theorem search_result_is_isolated_copy_witness :
    ((([Setter.setId 9, Setter.setTitle "X", Setter.setAuthor "Y", Setter.setISBN 0].foldl
        Client.mutate
        (Client.search
          { library := { books := [Book.mk "A" "X" 1 10, Book.mk "B" "Y" 2 20] },
            foundBook := Book.mk "A" "X" 1 10 } 2).2).search 2).2.foundBook.operator_eq
      (Book.mk "B" "Y" 2 20)) = true :=
  (search_result_is_isolated_copy
    { library := { books := [Book.mk "A" "X" 1 10, Book.mk "B" "Y" 2 20] },
      foundBook := Book.mk "A" "X" 1 10 } 2 (Book.mk "B" "Y" 2 20)
    (by decide) rfl (by decide)
    [Setter.setId 9, Setter.setTitle "X", Setter.setAuthor "Y", Setter.setISBN 0]).2.2.2.2.2

/-- C14: `main` lets no exception out: it ends with exit status 0, and what it
wrote to standard output is exactly two lines, first the message of the
duplicate ISBN 57439, then the message of the missing id 5. -/
theorem main_exits_zero_with_two_lines :
    main.1 = Except.ok 0 ∧
    main.2 =
      "ExistingBookISBNException Error: book by this ISBN already exists in this library! 57439"
        ++ "\n" ++
      "BookNotFoundException Error: Could not find any book by the ID: 5" ++ "\n" ∧
    main.2 = coutLine (coutLine ""
      "ExistingBookISBNException Error: book by this ISBN already exists in this library! 57439")
      "BookNotFoundException Error: Could not find any book by the ID: 5" :=
  ⟨rfl, rfl, rfl⟩

/-- C15: when `AddBook(b)` returns normally on a library, `RemoveBook(b)` on the
result gives back exactly the library before the `AddBook`: the library after
`AddBook` is the old entries followed by `b`, `find` stops inside it at the
position of the book just appended, past all the earlier entries, and that is
the entry erased. -/
theorem RemoveBook_after_AddBook_restores (lib : Library) (b : Book)
    (h : (lib.AddBook b).1 = Except.ok ()) :
    ((lib.AddBook b).2.RemoveBook b).2 = lib ∧
    ((lib.AddBook b).2.RemoveBook b).1 = Except.ok () ∧
    find (lib.AddBook b).2.books b = lib.books.length ∧
    (lib.AddBook b).2.books = lib.books ++ [b] ∧
    find (lib.AddBook b).2.books b < (lib.AddBook b).2.books.length ∧
    (lib.AddBook b).2.books[find (lib.AddBook b).2.books b]? = some b ∧
    ((lib.AddBook b).2.RemoveBook b).2.books
      = (lib.AddBook b).2.books.eraseIdx lib.books.length := by
  have hfresh := AddBook_ok_fresh lib b h
  have hne : ∀ x ∈ lib.books, x.operator_eq b = false := by
    intro x hx
    cases hb : x.operator_eq b with
    | false => rfl
    | true =>
      have heq := (Book.operator_eq_iff x b).1 hb
      exact absurd (congrArg Book.ISBN heq) (hfresh x hx)
  have hbb : b.operator_eq b = true := (Book.operator_eq_iff b b).2 rfl
  rw [AddBook_of_fresh lib b hfresh]
  have hrem := RemoveBook_split lib.books [] b b hbb hne
  simp only [List.append_nil] at hrem
  have hfind := find_split lib.books [] b b hbb hne
  refine ⟨?_, ?_, hfind, rfl, ?_, ?_, ?_⟩
  · rw [hrem]
  · rw [hrem]
  · rw [hfind]
    simp
  · rw [hfind]
    simp
  · rw [hrem]
    have herase := eraseIdx_split lib.books [] b
    simp only [List.append_nil] at herase
    exact herase.symm

theorem RemoveBook_after_AddBook_restores_witness :
    ((Library.AddBook { books := [Book.mk "A" "X" 1 10, Book.mk "B" "Y" 2 20] }
        (Book.mk "A" "X" 1 30)).2.RemoveBook (Book.mk "A" "X" 1 30)).2
      = { books := [Book.mk "A" "X" 1 10, Book.mk "B" "Y" 2 20] } :=
  (RemoveBook_after_AddBook_restores
    { books := [Book.mk "A" "X" 1 10, Book.mk "B" "Y" 2 20] } (Book.mk "A" "X" 1 30) rfl).1

/-- C16: on a library with pairwise distinct ISBNs, after `RemoveBook(b)` no
entry is equal (by `operator==`) to `b`; and when the library held an entry
equal to `b`, a following `AddBook(b)` returns normally and puts `b` last. -/
theorem RemoveBook_clears_all_matches (lib : Library) (b : Book) (hu : UniqueISBN lib) :
    (∀ x ∈ (lib.RemoveBook b).2.books, x.operator_eq b = false) ∧
    ((∃ e ∈ lib.books, e.operator_eq b = true) →
      ((lib.RemoveBook b).2.AddBook b).1 = Except.ok () ∧
      ((lib.RemoveBook b).2.AddBook b).2.books = (lib.RemoveBook b).2.books ++ [b] ∧
      ((lib.RemoveBook b).2.AddBook b).2.books.getLast? = some b) := by
  have hn : (lib.books.map Book.ISBN).Nodup := nodup_map_of_distinct Book.ISBN lib.books hu
  obtain ⟨h1, h2⟩ := RemoveBook_clears_of_nodup lib b hn
  refine ⟨h1, ?_⟩
  intro hex
  rw [AddBook_of_fresh (lib.RemoveBook b).2 b (h2 hex)]
  exact ⟨rfl, rfl, by simp⟩

theorem RemoveBook_clears_all_matches_witness :
    ((((Library.empty.run [Call.add (Book.mk "A" "X" 1 10), Call.add (Book.mk "B" "Y" 2 20),
          Call.add (Book.mk "C" "Z" 3 10)]).RemoveBook (Book.mk "A" "X" 1 10)).2.AddBook
        (Book.mk "A" "X" 1 10)).2.books
      = [Book.mk "B" "Y" 2 20] ++ [Book.mk "A" "X" 1 10]) :=
  ((RemoveBook_clears_all_matches
      (Library.empty.run [Call.add (Book.mk "A" "X" 1 10), Call.add (Book.mk "B" "Y" 2 20),
        Call.add (Book.mk "C" "Z" 3 10)])
      (Book.mk "A" "X" 1 10) (by decide)).2 ⟨Book.mk "A" "X" 1 10, by decide, by decide⟩).2.1

/-- C17: when `AddBook(b)` returns normally on a library, every search that
returned an entry `e` before still returns `e` afterwards, also for the id of
`b`; and when `SearchBookById(b.id)` threw before, it returns `b` afterwards. -/
theorem SearchBookById_stable_under_AddBook (lib : Library) (b : Book)
    (h : (lib.AddBook b).1 = Except.ok ()) :
    (∀ id e, (lib.SearchBookById id).1 = Except.ok e →
      ((lib.AddBook b).2.SearchBookById id).1 = Except.ok e) ∧
    ((∃ ex, (lib.SearchBookById b.id).1 = Except.error ex) →
      ((lib.AddBook b).2.SearchBookById b.id).1 = Except.ok b) := by
  rw [AddBook_of_fresh lib b (AddBook_ok_fresh lib b h)]
  constructor
  · intro id e hs
    exact SearchBookById.loop_append_ok lib.books [b] id e hs
  · rintro ⟨ex, hex⟩
    exact SearchBookById.loop_split lib.books [] b b.id rfl
      (SearchBookById.loop_error_absent lib.books b.id ex hex)

theorem SearchBookById_stable_under_AddBook_witness :
    ((Library.AddBook { books := [Book.mk "A" "X" 1 10, Book.mk "B" "Y" 2 20] }
        (Book.mk "C" "Z" 1 30)).2.SearchBookById 1).1 = Except.ok (Book.mk "A" "X" 1 10) :=
  (SearchBookById_stable_under_AddBook
    { books := [Book.mk "A" "X" 1 10, Book.mk "B" "Y" 2 20] } (Book.mk "C" "Z" 1 30) rfl).1
    1 (Book.mk "A" "X" 1 10) rfl

/-- C18: on a library with pairwise distinct identifiers, for an entry `e` and a
book `b` with the id of `e` but another title, author or ISBN, `RemoveBook(b)`
returns normally and leaves the library as it was, and `SearchBookById(e.id)`
afterwards returns `e`. -/
theorem RemoveBook_ignores_same_id_other_fields (lib : Library) (e b : Book)
    (hu : UniqueId lib) (he : e ∈ lib.books) (hid : b.id = e.id)
    (hne : b.title ≠ e.title ∨ b.author ≠ e.author ∨ b.ISBN ≠ e.ISBN) :
    (lib.RemoveBook b).1 = Except.ok () ∧
    (lib.RemoveBook b).2 = lib ∧
    ((lib.RemoveBook b).2.SearchBookById e.id).1 = Except.ok e := by
  have hn : (lib.books.map Book.id).Nodup := nodup_map_of_distinct Book.id lib.books hu
  have hinj := List.inj_on_of_nodup_map hn
  have hbe : b ≠ e := by
    intro hbe
    subst hbe
    simp at hne
  have habs : ∀ x ∈ lib.books, x.operator_eq b = false := by
    intro x hx
    cases hb : x.operator_eq b with
    | false => rfl
    | true =>
      have hxb := (Book.operator_eq_iff x b).1 hb
      have hxe : x = e := hinj hx he (by rw [hxb, hid])
      exact absurd (hxb.symm.trans hxe) hbe
  rw [RemoveBook_absent lib b habs]
  refine ⟨rfl, rfl, ?_⟩
  obtain ⟨pre, x, post, hl, hx, hpre⟩ :=
    exists_first_split (fun x : Book => decide (x.id = e.id)) lib.books ⟨e, he, by simp⟩
  have hxid : x.id = e.id := by simpa using hx
  have hxe : x = e := hinj (by rw [hl]; simp) he hxid
  have hres := SearchBookById.loop_split pre post x e.id hxid
    (fun y hy => by simpa using hpre y hy)
  rw [hxe] at hres
  simp only [Library.SearchBookById, hl]
  rw [hxe]
  exact hres

theorem RemoveBook_ignores_same_id_other_fields_witness :
    ((Library.RemoveBook { books := [Book.mk "A" "X" 1 10, Book.mk "B" "Y" 2 20] }
        (Book.mk "B" "Y" 2 21)).2.SearchBookById 2).1 = Except.ok (Book.mk "B" "Y" 2 20) :=
  (RemoveBook_ignores_same_id_other_fields
    { books := [Book.mk "A" "X" 1 10, Book.mk "B" "Y" 2 20] }
    (Book.mk "B" "Y" 2 20) (Book.mk "B" "Y" 2 21)
    (by decide) (by decide) rfl (by decide)).2.2

end BookLibrary
